import Mathlib

/-!
Shallow embedding of the account ledger of src/atm-simulator.py (class ATM).

Modelling conventions:
* Python float amounts are modelled as exact rationals (ℚ); the spec
  excludes currency precision/rounding rules from scope.
* The wall-clock timestamp field of a transaction record (datetime.now())
  is external I/O and is omitted from the Transaction model; no claim
  mentions timestamps.
* Each mutating method of the Python class is embedded as a function
  ATM → args → Bool × ATM returning the boolean result together with the
  post-state.
-/

/-- A transaction record, as built by ATM._record_transaction: a dictionary
with keys type, amount and balance (the timestamp entry is omitted, see
module docstring). -/
structure Transaction where
  type : String
  amount : ℚ
  balance : ℚ
  deriving Repr, DecidableEq

/-- The state of the ATM object: the fields set in ATM.__init__. -/
structure ATM where
  card_number : String
  pin : String
  balance : ℚ
  max_pin_attempts : ℕ
  pin_attempts : ℕ
  transaction_history : List Transaction
  deriving Repr, DecidableEq

/-- The state built by ATM.__init__. -/
def ATM.init : ATM :=
  { card_number := "1234"
    pin := "5472"
    balance := 1000
    max_pin_attempts := 3
    pin_attempts := 0
    transaction_history := [] }

/-- ATM.validate_pin: blocked check, then comparison with the stored PIN. -/
def ATM.validate_pin (a : ATM) (pin : String) : Bool × ATM :=
  if a.pin_attempts ≥ a.max_pin_attempts then
    (false, a)
  else if pin = a.pin then
    (true, { a with pin_attempts := 0 })
  else
    (false, { a with pin_attempts := a.pin_attempts + 1 })

/-- ATM.check_balance: pure read of the balance. -/
def ATM.check_balance (a : ATM) : ℚ :=
  a.balance

/-- ATM._record_transaction: append one record holding the transaction type,
the amount and the balance at recording time. -/
def ATM.record_transaction (a : ATM) (transaction_type : String) (amount : ℚ) : ATM :=
  { a with transaction_history := a.transaction_history ++
      [{ type := transaction_type, amount := amount, balance := a.balance }] }

/-- ATM.deposit: guard amount > 0; add to balance, then record. -/
def ATM.deposit (a : ATM) (amount : ℚ) : Bool × ATM :=
  if 0 < amount then
    (true, ({ a with balance := a.balance + amount }).record_transaction "Deposit" amount)
  else
    (false, a)

/-- ATM.withdraw: guard 0 < amount <= balance; subtract, then record. -/
def ATM.withdraw (a : ATM) (amount : ℚ) : Bool × ATM :=
  if 0 < amount ∧ amount ≤ a.balance then
    (true, ({ a with balance := a.balance - amount }).record_transaction "Withdrawal" (-amount))
  else
    (false, a)

/-- ATM.transfer: same guard and balance mutation as withdraw; the record
type carries the target account string. -/
def ATM.transfer (a : ATM) (amount : ℚ) (target_account : String) : Bool × ATM :=
  if 0 < amount ∧ amount ≤ a.balance then
    (true, ({ a with balance := a.balance - amount }).record_transaction
      ("Transfer to " ++ target_account) (-amount))
  else
    (false, a)

/-- Code-point ranges (inclusive) of the characters Python str.isdigit
counts as digits: those whose Unicode Numeric_Type is Decimal or Digit,
per the Unicode 14.0.0 data CPython ships. This is a strict superset of
the ASCII digits 48-57: e.g. 1632-1641 are the Arabic-Indic digits and
178, 179, 185 the superscript digits. -/
def pyIsdigit_ranges : List (ℕ × ℕ) :=
  [(48, 57), (178, 179), (185, 185), (1632, 1641), (1776, 1785), (1984, 1993), (2406, 2415),
   (2534, 2543), (2662, 2671), (2790, 2799), (2918, 2927), (3046, 3055), (3174, 3183),
   (3302, 3311), (3430, 3439), (3558, 3567), (3664, 3673), (3792, 3801), (3872, 3881),
   (4160, 4169), (4240, 4249), (4969, 4977), (6112, 6121), (6160, 6169), (6470, 6479),
   (6608, 6618), (6784, 6793), (6800, 6809), (6992, 7001), (7088, 7097), (7232, 7241),
   (7248, 7257), (8304, 8304), (8308, 8313), (8320, 8329), (9312, 9320), (9332, 9340),
   (9352, 9360), (9450, 9450), (9461, 9469), (9471, 9471), (10102, 10110), (10112, 10120),
   (10122, 10130), (42528, 42537), (43216, 43225), (43264, 43273), (43472, 43481),
   (43504, 43513), (43600, 43609), (44016, 44025), (65296, 65305), (66720, 66729),
   (68160, 68163), (68912, 68921), (69216, 69224), (69714, 69722), (69734, 69743),
   (69872, 69881), (69942, 69951), (70096, 70105), (70384, 70393), (70736, 70745),
   (70864, 70873), (71248, 71257), (71360, 71369), (71472, 71481), (71904, 71913),
   (72016, 72025), (72784, 72793), (73040, 73049), (73120, 73129), (92768, 92777),
   (92864, 92873), (93008, 93017), (120782, 120831), (123200, 123209), (123632, 123641),
   (125264, 125273), (127232, 127242), (130032, 130041)]

/-- Character-level test of Python str.isdigit: membership of the code
point in pyIsdigit_ranges. -/
def pyIsdigitChar (c : Char) : Bool :=
  pyIsdigit_ranges.any fun p => p.1 ≤ c.toNat && c.toNat ≤ p.2

/-- Python str.isdigit: true when the string is nonempty and every
character is a Unicode digit. -/
def str_isdigit (s : String) : Bool :=
  s.length != 0 && s.data.all pyIsdigitChar

/-- ATM.change_pin: guard len(new_pin) == 4 and new_pin.isdigit(); replace
the PIN, then record a zero-amount transaction. -/
def ATM.change_pin (a : ATM) (new_pin : String) : Bool × ATM :=
  if new_pin.length = 4 ∧ str_isdigit new_pin then
    (true, ({ a with pin := new_pin }).record_transaction "PIN Change" 0)
  else
    (false, a)

/-- ATM.print_mini_statement iterates over transaction_history[-5:]; its
observable content is that final slice of the history. -/
def ATM.print_mini_statement (a : ATM) : List Transaction :=
  a.transaction_history.drop (a.transaction_history.length - 5)

/-- The ledger operations a session can invoke, with their arguments. -/
inductive Op where
  | validatePin (pin : String)
  | deposit (amount : ℚ)
  | withdraw (amount : ℚ)
  | transfer (amount : ℚ) (target : String)
  | changePin (newPin : String)
  deriving Repr

/-- The post-state of one ledger operation. -/
def ATM.step (a : ATM) : Op → ATM
  | Op.validatePin p => (a.validate_pin p).2
  | Op.deposit amt => (a.deposit amt).2
  | Op.withdraw amt => (a.withdraw amt).2
  | Op.transfer amt t => (a.transfer amt t).2
  | Op.changePin p => (a.change_pin p).2

/-- The state after a finite sequence of ledger operations. -/
def ATM.run (a : ATM) (ops : List Op) : ATM :=
  ops.foldl ATM.step a

/-- The ledger-interface observation of a state: balance, PIN and
transaction history. -/
def ATM.ledgerView (a : ATM) : ℚ × String × List Transaction :=
  (a.balance, a.pin, a.transaction_history)

/-! Helper lemmas shared by the claim theorems. -/

theorem ATM.step_max (a : ATM) (op : Op) :
    (a.step op).max_pin_attempts = a.max_pin_attempts := by
  cases op <;>
    simp only [ATM.step, ATM.validate_pin, ATM.deposit, ATM.withdraw, ATM.transfer,
      ATM.change_pin, ATM.record_transaction] <;>
    repeat' first | rfl | split

theorem ATM.run_max (a : ATM) (ops : List Op) :
    (a.run ops).max_pin_attempts = a.max_pin_attempts := by
  induction ops generalizing a with
  | nil => rfl
  | cons op ops ih => simpa [ATM.run, ATM.step_max] using ih (a.step op)

theorem ATM.step_pin_attempts_le (a : ATM) (op : Op)
    (h : a.pin_attempts ≤ a.max_pin_attempts) :
    (a.step op).pin_attempts ≤ (a.step op).max_pin_attempts := by
  cases op <;>
    simp only [ATM.step, ATM.validate_pin, ATM.deposit, ATM.withdraw, ATM.transfer,
      ATM.change_pin, ATM.record_transaction] <;>
    repeat' split
  all_goals simp_all
  all_goals omega

theorem ATM.run_pin_attempts_le (a : ATM) (ops : List Op)
    (h : a.pin_attempts ≤ a.max_pin_attempts) :
    (a.run ops).pin_attempts ≤ (a.run ops).max_pin_attempts := by
  induction ops generalizing a with
  | nil => exact h
  | cons op ops ih => exact ih (a.step op) (a.step_pin_attempts_le op h)

theorem ATM.step_balance_nonneg (a : ATM) (op : Op) (h : 0 ≤ a.balance) :
    0 ≤ (a.step op).balance := by
  cases op <;>
    simp only [ATM.step, ATM.validate_pin, ATM.deposit, ATM.withdraw, ATM.transfer,
      ATM.change_pin, ATM.record_transaction] <;>
    repeat' split
  all_goals simp_all
  all_goals linarith

theorem ATM.run_balance_nonneg (a : ATM) (ops : List Op) (h : 0 ≤ a.balance) :
    0 ≤ (a.run ops).balance := by
  induction ops generalizing a with
  | nil => exact h
  | cons op ops ih => exact ih (a.step op) (a.step_balance_nonneg op h)

/-- C1: once pinAttempts has reached maxAttempts, validate_pin returns false
and leaves the state unchanged (even on the correct PIN); along any run from
the initial state pin_attempts never exceeds 3; and validate_pin with the
correct PIN in a non-blocked state returns true and resets pin_attempts to 0. -/
theorem claim_C1 (a : ATM) (input : String) :
    (a.max_pin_attempts ≤ a.pin_attempts → a.validate_pin input = (false, a)) ∧
    (∀ ops : List Op, (ATM.init.run ops).pin_attempts ≤ 3) ∧
    (a.pin_attempts < a.max_pin_attempts → input = a.pin →
      a.validate_pin input = (true, { a with pin_attempts := 0 })) := by
  refine ⟨?_, ?_, ?_⟩
  · intro h
    simp [ATM.validate_pin, h]
  · intro ops
    have h := ATM.run_pin_attempts_le ATM.init ops (by decide)
    rwa [ATM.run_max] at h
  · intro hlt heq
    simp [ATM.validate_pin, not_le.mpr hlt, heq]

theorem claim_C1_witness :
    ((ATM.init.run [Op.validatePin "0", Op.validatePin "0", Op.validatePin "0"]).validate_pin
        "5472" =
      (false, ATM.init.run [Op.validatePin "0", Op.validatePin "0", Op.validatePin "0"])) ∧
    (ATM.init.run []).pin_attempts ≤ 3 ∧
    ATM.init.validate_pin "5472" = (true, { ATM.init with pin_attempts := 0 }) := by
  refine ⟨?_, ?_, ?_⟩
  · exact (claim_C1 (ATM.init.run [Op.validatePin "0", Op.validatePin "0",
      Op.validatePin "0"]) "5472").1 (by decide)
  · exact (claim_C1 ATM.init "5472").2.1 []
  · exact (claim_C1 ATM.init "5472").2.2 (by decide) rfl

/-- C2: withdraw with 0 < a <= balance returns true, subtracts a from the
balance and appends exactly one Withdrawal record with amount -a and
balance-after equal to the new balance; otherwise it returns false and
changes nothing. -/
theorem claim_C2 (a : ATM) (amount : ℚ) :
    (0 < amount → amount ≤ a.balance →
      a.withdraw amount =
        (true,
          { a with
              balance := a.balance - amount
              transaction_history := a.transaction_history ++
                [{ type := "Withdrawal", amount := -amount,
                   balance := a.balance - amount }] })) ∧
    (amount ≤ 0 ∨ a.balance < amount → a.withdraw amount = (false, a)) := by
  constructor
  · intro h1 h2
    simp [ATM.withdraw, ATM.record_transaction, h1, h2]
  · intro h
    have hng : ¬ (0 < amount ∧ amount ≤ a.balance) := by
      rcases h with h | h
      · exact fun hc => absurd hc.1 (not_lt.mpr h)
      · exact fun hc => absurd hc.2 (not_le.mpr h)
    simp [ATM.withdraw, hng]

theorem claim_C2_witness :
    ATM.init.withdraw 100 =
      (true,
        { ATM.init with
            balance := ATM.init.balance - 100
            transaction_history := ATM.init.transaction_history ++
              [{ type := "Withdrawal", amount := -100,
                 balance := ATM.init.balance - 100 }] }) ∧
    ATM.init.withdraw 2000 = (false, ATM.init) := by
  constructor
  · exact (claim_C2 ATM.init 100).1 (by norm_num) (by norm_num [ATM.init])
  · exact (claim_C2 ATM.init 2000).2 (Or.inr (by norm_num [ATM.init]))

/-- C3: deposit with a > 0 returns true, adds a to the balance and appends
exactly one Deposit record with amount a and balance-after equal to the new
balance; with a <= 0 it returns false and changes nothing. -/
theorem claim_C3 (a : ATM) (amount : ℚ) :
    (0 < amount →
      a.deposit amount =
        (true,
          { a with
              balance := a.balance + amount
              transaction_history := a.transaction_history ++
                [{ type := "Deposit", amount := amount,
                   balance := a.balance + amount }] })) ∧
    (amount ≤ 0 → a.deposit amount = (false, a)) := by
  constructor
  · intro h
    simp [ATM.deposit, ATM.record_transaction, h]
  · intro h
    simp [ATM.deposit, not_lt.mpr h]

theorem claim_C3_witness :
    ATM.init.deposit 200 =
      (true,
        { ATM.init with
            balance := ATM.init.balance + 200
            transaction_history := ATM.init.transaction_history ++
              [{ type := "Deposit", amount := 200,
                 balance := ATM.init.balance + 200 }] }) ∧
    ATM.init.deposit 0 = (false, ATM.init) := by
  constructor
  · exact (claim_C3 ATM.init 200).1 (by norm_num)
  · exact (claim_C3 ATM.init 0).2 le_rfl

/-- C4: starting from the initial state (balance 1000), after every finite
sequence of ledger operations with arbitrary arguments the balance is
nonnegative. -/
theorem claim_C4 (ops : List Op) : 0 ≤ (ATM.init.run ops).balance :=
  ATM.run_balance_nonneg ATM.init ops (by norm_num [ATM.init])

theorem change_pin_cond_iff (s : String) :
    (s.length = 4 ∧ ∀ c ∈ s.data, pyIsdigitChar c = true) ↔
      (s.length = 4 ∧ str_isdigit s = true) := by
  constructor
  · rintro ⟨h4, hall⟩
    refine ⟨h4, ?_⟩
    simp [str_isdigit, h4, List.all_eq_true]
    exact hall
  · rintro ⟨h4, hd⟩
    simp [str_isdigit, List.all_eq_true] at hd
    exact ⟨h4, hd.2⟩

/-- C5 counterexample: the Arabic-Indic digit string returned by Python for
"٥٥٥٥" has length 4 and passes str.isdigit, so change_pin accepts it and
replaces the PIN, although none of its characters is an ASCII digit 0-9 —
refuting the claim that every input outside 0-9 digits yields false and
leaves the PIN unchanged. -/
theorem claim_C5_counterexample :
    (ATM.init.change_pin "٥٥٥٥").1 = true ∧
    (ATM.init.change_pin "٥٥٥٥").2.pin = "٥٥٥٥" ∧
    ¬ ("٥٥٥٥".length = 4 ∧ ∀ c ∈ "٥٥٥٥".data, c.isDigit = true) := by
  refine ⟨?_, ?_, ?_⟩ <;> decide

/-- C5 (amended): change_pin succeeds, replaces the stored PIN and appends
one zero-amount PIN Change record exactly when the input has length 4 and
every character is a digit in the sense of Python str.isdigit (a strict
superset of 0-9 that includes e.g. Arabic-Indic and superscript digits);
any other input yields false and leaves the state unchanged. -/
theorem claim_C5 (a : ATM) (s : String) :
    ((s.length = 4 ∧ ∀ c ∈ s.data, pyIsdigitChar c = true) →
      a.change_pin s =
        (true,
          { a with
              pin := s
              transaction_history := a.transaction_history ++
                [{ type := "PIN Change", amount := 0, balance := a.balance }] })) ∧
    (¬ (s.length = 4 ∧ ∀ c ∈ s.data, pyIsdigitChar c = true) →
      a.change_pin s = (false, a)) := by
  constructor
  · intro h
    have hc := (change_pin_cond_iff s).mp h
    simp [ATM.change_pin, ATM.record_transaction, hc.1, hc.2]
  · intro h
    have hc : ¬ (s.length = 4 ∧ str_isdigit s = true) :=
      fun hcode => h ((change_pin_cond_iff s).mpr hcode)
    simp only [ATM.change_pin]
    rw [if_neg hc]

theorem claim_C5_witness :
    ATM.init.change_pin "9999" =
      (true,
        { ATM.init with
            pin := "9999"
            transaction_history := ATM.init.transaction_history ++
              [{ type := "PIN Change", amount := 0, balance := ATM.init.balance }] }) ∧
    ATM.init.change_pin "12a4" = (false, ATM.init) := by
  constructor
  · exact (claim_C5 ATM.init "9999").1 (by decide)
  · exact (claim_C5 ATM.init "12a4").2 (by decide)

/-- C6: transfer returns the same boolean and produces the same resulting
balance as withdraw on the same starting state, for every amount and every
target string. -/
theorem claim_C6 (a : ATM) (amount : ℚ) (t : String) :
    (a.transfer amount t).1 = (a.withdraw amount).1 ∧
    (a.transfer amount t).2.balance = (a.withdraw amount).2.balance := by
  unfold ATM.transfer ATM.withdraw
  by_cases h : 0 < amount ∧ amount ≤ a.balance
  · simp [h, ATM.record_transaction]
  · simp [h]

/-- C7: each mutating operation is a total function in this embedding, and
when its guard is violated it returns false and the post-state equals the
pre-state in every field. -/
theorem claim_C7 (a : ATM) :
    (∀ amount : ℚ, ¬ 0 < amount → a.deposit amount = (false, a)) ∧
    (∀ amount : ℚ, ¬ (0 < amount ∧ amount ≤ a.balance) →
      a.withdraw amount = (false, a)) ∧
    (∀ (amount : ℚ) (t : String), ¬ (0 < amount ∧ amount ≤ a.balance) →
      a.transfer amount t = (false, a)) ∧
    (∀ s : String, ¬ (s.length = 4 ∧ str_isdigit s = true) →
      a.change_pin s = (false, a)) := by
  refine ⟨?_, ?_, ?_, ?_⟩
  · intro amount h
    simp [ATM.deposit, h]
  · intro amount h
    simp only [ATM.withdraw]
    rw [if_neg h]
  · intro amount t h
    simp only [ATM.transfer]
    rw [if_neg h]
  · intro s h
    simp only [ATM.change_pin]
    rw [if_neg h]

theorem claim_C7_witness :
    ATM.init.deposit 0 = (false, ATM.init) ∧
    ATM.init.withdraw 2000 = (false, ATM.init) ∧
    ATM.init.transfer 2000 "acct" = (false, ATM.init) ∧
    ATM.init.change_pin "12a4" = (false, ATM.init) := by
  refine ⟨?_, ?_, ?_, ?_⟩
  · exact (claim_C7 ATM.init).1 0 (by norm_num)
  · exact (claim_C7 ATM.init).2.1 2000 (by norm_num [ATM.init])
  · exact (claim_C7 ATM.init).2.2.1 2000 "acct" (by norm_num [ATM.init])
  · exact (claim_C7 ATM.init).2.2.2 "12a4" (by decide)

theorem getLast?_drop_of_lt {α : Type} (l : List α) (n : ℕ) (h : n < l.length) :
    (l.drop n).getLast? = l.getLast? := by
  induction l generalizing n with
  | nil => simp at h
  | cons x xs ih =>
    cases n with
    | zero => rfl
    | succ n =>
      have hn : n < xs.length := by simpa using h
      cases xs with
      | nil => simp at hn
      | cons y ys =>
        rw [List.drop_succ_cons, List.getLast?_cons_cons]
        exact ih n hn

/-- C8: after any finite sequence of operations, the mini statement is the
last min(5, length) entries of the history: at most 5 records, a contiguous
final segment of the history in chronological order, including the most
recent record, and empty when the history is empty. -/
theorem claim_C8 (ops : List Op) :
    (ATM.init.run ops).print_mini_statement.length ≤ 5 ∧
    (ATM.init.run ops).print_mini_statement.length =
      min 5 (ATM.init.run ops).transaction_history.length ∧
    (ATM.init.run ops).print_mini_statement <:+
      (ATM.init.run ops).transaction_history ∧
    (ATM.init.run ops).print_mini_statement.getLast? =
      (ATM.init.run ops).transaction_history.getLast? ∧
    ((ATM.init.run ops).transaction_history = [] →
      (ATM.init.run ops).print_mini_statement = []) := by
  refine ⟨?_, ?_, ?_, ?_, ?_⟩
  · simp only [ATM.print_mini_statement, List.length_drop]
    omega
  · simp only [ATM.print_mini_statement, List.length_drop]
    omega
  · exact List.drop_suffix _ _
  · by_cases h : (ATM.init.run ops).transaction_history.length ≤ 5
    · simp [ATM.print_mini_statement, Nat.sub_eq_zero_of_le h]
    · exact getLast?_drop_of_lt _ _ (by omega)
  · intro h
    simp [ATM.print_mini_statement, h]

theorem claim_C8_witness :
    (ATM.init.run []).print_mini_statement = [] ∧
    (ATM.init.run []).print_mini_statement.length ≤ 5 :=
  ⟨(claim_C8 []).2.2.2.2 rfl, (claim_C8 []).1⟩

/-- C9: the outcome of deposit, withdraw, transfer and change_pin does not
depend on pin_attempts: two states differing only in pin_attempts yield the
same boolean and the same resulting balance, pin and transaction history. -/
theorem claim_C9 (a : ATM) (n m : ℕ) (amount : ℚ) (t s : String) :
    (({ a with pin_attempts := n }).deposit amount).1 =
      (({ a with pin_attempts := m }).deposit amount).1 ∧
    (({ a with pin_attempts := n }).deposit amount).2.ledgerView =
      (({ a with pin_attempts := m }).deposit amount).2.ledgerView ∧
    (({ a with pin_attempts := n }).withdraw amount).1 =
      (({ a with pin_attempts := m }).withdraw amount).1 ∧
    (({ a with pin_attempts := n }).withdraw amount).2.ledgerView =
      (({ a with pin_attempts := m }).withdraw amount).2.ledgerView ∧
    (({ a with pin_attempts := n }).transfer amount t).1 =
      (({ a with pin_attempts := m }).transfer amount t).1 ∧
    (({ a with pin_attempts := n }).transfer amount t).2.ledgerView =
      (({ a with pin_attempts := m }).transfer amount t).2.ledgerView ∧
    (({ a with pin_attempts := n }).change_pin s).1 =
      (({ a with pin_attempts := m }).change_pin s).1 ∧
    (({ a with pin_attempts := n }).change_pin s).2.ledgerView =
      (({ a with pin_attempts := m }).change_pin s).2.ledgerView := by
  refine ⟨?_, ?_, ?_, ?_, ?_, ?_, ?_, ?_⟩ <;>
    simp only [ATM.deposit, ATM.withdraw, ATM.transfer, ATM.change_pin,
      ATM.record_transaction, ATM.ledgerView] <;>
    split <;>
    simp_all

/-- C10: frame conditions: no operation changes card_number; validate_pin
changes neither balance, pin, card_number nor the history; deposit, withdraw
and transfer change neither pin nor pin_attempts; change_pin changes neither
balance nor pin_attempts. -/
theorem claim_C10 (a : ATM) (amount : ℚ) (input t s : String) (op : Op) :
    (a.step op).card_number = a.card_number ∧
    (a.validate_pin input).2.balance = a.balance ∧
    (a.validate_pin input).2.pin = a.pin ∧
    (a.validate_pin input).2.card_number = a.card_number ∧
    (a.validate_pin input).2.transaction_history = a.transaction_history ∧
    (a.deposit amount).2.pin = a.pin ∧
    (a.deposit amount).2.pin_attempts = a.pin_attempts ∧
    (a.withdraw amount).2.pin = a.pin ∧
    (a.withdraw amount).2.pin_attempts = a.pin_attempts ∧
    (a.transfer amount t).2.pin = a.pin ∧
    (a.transfer amount t).2.pin_attempts = a.pin_attempts ∧
    (a.change_pin s).2.balance = a.balance ∧
    (a.change_pin s).2.pin_attempts = a.pin_attempts := by
  refine ⟨?_, ?_, ?_, ?_, ?_, ?_, ?_, ?_, ?_, ?_, ?_, ?_, ?_⟩
  · cases op <;>
      simp only [ATM.step, ATM.validate_pin, ATM.deposit, ATM.withdraw, ATM.transfer,
        ATM.change_pin, ATM.record_transaction] <;>
      repeat' first | rfl | split
  all_goals
    simp only [ATM.validate_pin, ATM.deposit, ATM.withdraw, ATM.transfer,
      ATM.change_pin, ATM.record_transaction]
    repeat' first | rfl | split

example : (ATM.init.deposit 200).2.balance = 1200 := by
  norm_num [ATM.init, ATM.deposit, ATM.record_transaction]
example : (ATM.init.withdraw 1500).1 = false := by
  norm_num [ATM.init, ATM.withdraw]
example : ((ATM.init.run [Op.validatePin "0", Op.validatePin "0",
    Op.validatePin "0"]).validate_pin "5472").1 = false := by decide
example : (ATM.init.change_pin "12a4").1 = false := by decide
example : (ATM.init.change_pin "9999").2.pin = "9999" := by decide
